import Mathlib

/-
Verification of random-vmotion.py (vSphere-Python repository).

The script is shallowly embedded below. Pure lookups become Lean functions,
the body of main becomes an explicit function from a startup environment to
an observable result (return value, log lines, resolved sets, whether the
thread pool was created, and which exception, if any, reached the two
outermost except clauses). The Python interpreter facts that the embedding
relies on are recorded in doc comments at the definitions that use them.

set_option note: everything is computable so that concrete runs evaluate by
decide or rfl.
-/

set_option autoImplicit false

/-- Exceptions that can reach the try/except structure of main
(lines 171-259 of random-vmotion.py). `indexError` is raised by `row[0]`
on a field-less CSV record, `ioError` by `open` on a missing file,
`valueError` by `multiprocessing.pool.Pool.__init__` when the process count
is below 1, and `methodFault` stands for `vmodl.MethodFault`, the one
exception class with a dedicated except clause (line 254). -/
inductive PyErr where
  | indexError
  | ioError
  | valueError
  | methodFault
  deriving DecidableEq, Repr

/-- The log lines emitted by the embedded parts of the script, one
constructor per distinct logging call site in the source. -/
inductive LogMsg where
  | errorNoConnection
  | criticalVmFileMissing
  | warnNoVmName
  | warnVmNotFound (name : String)
  | warnNoHostName
  | warnHostNotFound (name : String)
  | warnThreadAdjust (threads : Int) (vmCount : Nat)
  | criticalVmodlFault
  | criticalException (e : PyErr)
  | infoFinishedAllTasks
  | debugThreadStarted (name : String)
  deriving DecidableEq, Repr

/-- A `vim.VirtualMachine` managed object as the script observes it: a
display name plus a stable managed-object identity. -/
structure VMObj where
  name : String
  moId : Nat
  deriving DecidableEq, Repr

/-- A `vim.HostSystem` managed object as the script observes it. -/
structure HostObj where
  name : String
  moId : Nat
  deriving DecidableEq, Repr

/-- A Python value as it appears in the two comparisons of the script:
either a str or a `vim.HostSystem` managed object. -/
inductive PyVal where
  | pyStr (s : String)
  | pyHost (h : HostObj)
  deriving DecidableEq, Repr

/-- Python `==` restricted to the values compared in the script. Two str
values compare by content. A str compared with a managed object is False:
`str.__eq__` returns NotImplemented for a non-str operand, and the
reflected pyVmomi `ManagedObject.__eq__` compares typed string
representations of the form `vim.HostSystem:<moId>`, which never equal a
bare inventory name; two managed objects are equal exactly when those
representations agree, i.e. when they are the same inventory object. -/
def pyEq : PyVal → PyVal → Bool
  | .pyStr a, .pyStr b => a == b
  | .pyHost a, .pyHost b => a == b
  | _, _ => false

/-- Lines 62-82: `find_vm` walks the container view of all virtual machines
and returns the first whose name equals the requested name, else None. The
container view is embedded as the list `inventory`. -/
def find_vm (inventory : List VMObj) (name : String) : Option VMObj :=
  inventory.find? (fun vm => pyEq (.pyStr vm.name) (.pyStr name))

/-- Lines 84-104: `find_host` walks the container view of all hosts. Its
match condition (line 98) is `host.name == host`: the name of the host
under inspection is compared with the host object itself, not with the
requested `name`, which the loop only uses in debug logging. -/
def find_host (inventory : List HostObj) (name : String) : Option HostObj :=
  inventory.find? (fun host => pyEq (.pyStr host.name) (.pyHost host))

/-- The observable outcome of one call to `vm_vmotion_handler`: the log
lines it emits, the relocation calls it issues against the migration
engine, and its Python return value (`none` embeds Python None). -/
structure HandlerResult where
  logs : List LogMsg
  migrateCalls : List (VMObj × HostObj)
  ret : Option Unit
  deriving DecidableEq, Repr

/-- Lines 113-121: the body of `vm_vmotion_handler` assigns two locals
(`run_loop = True`, `vm = None`), logs one debug line, and falls off the
end, so it returns Python None and never touches the migration engine.
The `si` and `logger` parameters of the source carry no data the embedding
observes and are dropped. -/
def vm_vmotion_handler (vm_name : String) (host : HostObj) : HandlerResult :=
  { logs := [.debugThreadStarted vm_name], migrateCalls := [], ret := none }

/-- Lines 106-111: `vm_vmotion_handler_wrapper` unpacks an argument tuple
and delegates to `vm_vmotion_handler`. -/
def vm_vmotion_handler_wrapper (args : String × HostObj) : HandlerResult :=
  vm_vmotion_handler args.1 args.2

/-- One iteration of either CSV loop of main (lines 197-213 for VMs,
lines 219-235 for hosts), parameterised by the lookup function and the two
warning messages of that loop. A record with no fields raises IndexError at
`row[0]`. A record whose first field is the empty string is skipped with a
warning: `row[0] is ''` behaves as an equality test because CPython interns
the empty string, and `row[0] is None` is never true of a csv field, so it
is not represented. Otherwise the first field is looked up; a hit
contributes the found object, a miss contributes a warning. -/
def rowStep {α : Type} (find : String → Option α) (warnEmpty : LogMsg)
    (warnMissing : String → LogMsg) (row : List String) :
    Except PyErr (Option α × List LogMsg) :=
  match row with
  | [] => .error .indexError
  | name :: _ =>
    if name = "" then
      .ok (none, [warnEmpty])
    else
      match find name with
      | some x => .ok (some x, [])
      | none => .ok (none, [warnMissing name])

/-- Either CSV loop of main in full: records are processed in order,
found objects are appended in order, warnings accumulate in order, and the
first raised exception aborts the loop (it is caught only by the except
clauses at lines 254-259; warnings already written to the log before the
exception are not tracked on the error path, no claim reads them there). -/
def resolveLoop {α : Type} (find : String → Option α) (warnEmpty : LogMsg)
    (warnMissing : String → LogMsg) :
    List (List String) → Except PyErr (List α × List LogMsg)
  | [] => .ok ([], [])
  | row :: rest =>
    match rowStep find warnEmpty warnMissing row with
    | .error e => .error e
    | .ok (ox, rlogs) =>
      match resolveLoop find warnEmpty warnMissing rest with
      | .error e => .error e
      | .ok (xs, logs) => .ok (ox.toList ++ xs, rlogs ++ logs)

/-- Lines 245-247: when the resolved VM count is below the configured
thread count, main logs one warning and lowers the thread count to the VM
count; otherwise both are left untouched. The returned pair is the
effective thread count and the list of adjustment messages emitted. -/
def adjustThreads (vmCount : Nat) (threads : Int) : Int × List LogMsg :=
  if (vmCount : Int) < threads then
    ((vmCount : Int), [.warnThreadAdjust threads vmCount])
  else
    (threads, [])

/-- Line 251: `ThreadPool(threads)`. `multiprocessing.dummy.Pool` delegates
to `multiprocessing.pool.Pool.__init__`, which raises
`ValueError("Number of processes must be at least 1")` when the process
count is below 1 and otherwise constructs the pool. -/
def threadPool (processes : Int) : Except PyErr Unit :=
  if processes < 1 then .error .valueError else .ok ()

/-- Lines 254-259: the two except clauses at the bottom of the try block.
`vmodl.MethodFault` has its own clause; every other exception lands in the
generic `except Exception` clause. Both log critical and make main
return 1. -/
def catchLog (e : PyErr) : LogMsg :=
  match e with
  | .methodFault => .criticalVmodlFault
  | _ => .criticalException e

/-- Lines 171-181: the outcome of `SmartConnect`. `ok` embeds a session
being returned. `ioFail` embeds an IOError (unreachable endpoint), which
the inner `except IOError: pass` swallows, leaving `si` as None so that
main logs an error and returns 1. `authFault` embeds an authentication
fault such as `vim.fault.InvalidLogin`, a `vmodl.MethodFault` that the
inner clause does not catch, so it propagates to the except clause at
line 254. -/
inductive ConnectOutcome where
  | ok
  | ioFail
  | authFault
  deriving DecidableEq, Repr

/-- The startup environment of one run of main, as observed after argument
parsing: connection outcome, existence and parsed CSV rows of the two input
files, the inventory that the two container views enumerate, and the
configured thread count. -/
structure Env where
  connect : ConnectOutcome
  vmfileExists : Bool
  vmRows : List (List String)
  targetfileExists : Bool
  targetRows : List (List String)
  vmInventory : List VMObj
  hostInventory : List HostObj
  threads : Int
  deriving Repr

/-- Everything observable about one run of main: its return value, the log
lines of the modelled call sites, the resolved VM and host lists, whether
`ThreadPool` was constructed, how many relocation calls were issued against
the migration engine, and which exception, if any, reached the two
outermost except clauses. -/
structure MainResult where
  retVal : Int
  logs : List LogMsg
  vms : List VMObj
  hosts : List HostObj
  poolCreated : Bool
  migrationsIssued : Nat
  caught : Option PyErr
  deriving DecidableEq, Repr

/-- Lines 123-262: the body of main after argument parsing and logging
setup, step for step. Connection handling (171-181), the existence check
that only the VM file receives (189-191), the VM loop (195-213), the
target file open with no existence check (217), the host loop (218-235),
the thread adjustment (245-247), pool construction (251), and the two
except clauses (254-259). On every path that no exception escapes, main
falls through to `logger.info('Finished all tasks')` and `return 0`
(lines 261-262); no path issues a relocation call. -/
def mainRun (env : Env) : MainResult :=
  match env.connect with
  | .authFault =>
    { retVal := 1, logs := [.criticalVmodlFault], vms := [], hosts := [],
      poolCreated := false, migrationsIssued := 0, caught := some .methodFault }
  | .ioFail =>
    { retVal := 1, logs := [.errorNoConnection], vms := [], hosts := [],
      poolCreated := false, migrationsIssued := 0, caught := none }
  | .ok =>
    if env.vmfileExists = false then
      { retVal := 1, logs := [.criticalVmFileMissing], vms := [], hosts := [],
        poolCreated := false, migrationsIssued := 0, caught := none }
    else
      match resolveLoop (find_vm env.vmInventory) .warnNoVmName .warnVmNotFound env.vmRows with
      | .error e =>
        { retVal := 1, logs := [catchLog e], vms := [], hosts := [],
          poolCreated := false, migrationsIssued := 0, caught := some e }
      | .ok (vms, vmLogs) =>
        if env.targetfileExists = false then
          { retVal := 1, logs := vmLogs ++ [catchLog .ioError], vms := vms,
            hosts := [], poolCreated := false, migrationsIssued := 0,
            caught := some .ioError }
        else
          match resolveLoop (find_host env.hostInventory) .warnNoHostName .warnHostNotFound env.targetRows with
          | .error e =>
            { retVal := 1, logs := vmLogs ++ [catchLog e], vms := vms,
              hosts := [], poolCreated := false, migrationsIssued := 0,
              caught := some e }
          | .ok (hosts, hostLogs) =>
            let ta := adjustThreads vms.length env.threads
            match threadPool ta.1 with
            | .error e =>
              { retVal := 1, logs := vmLogs ++ hostLogs ++ ta.2 ++ [catchLog e],
                vms := vms, hosts := hosts, poolCreated := false,
                migrationsIssued := 0, caught := some e }
            | .ok _ =>
              { retVal := 0,
                logs := vmLogs ++ hostLogs ++ ta.2 ++ [.infoFinishedAllTasks],
                vms := vms, hosts := hosts, poolCreated := true,
                migrationsIssued := 0, caught := none }

/-- Lines 265-266: the module entry point is `main()` on its own, so the
return value of main is discarded; the interpreter then leaves the module
normally and the process exit status is 0 on every modelled run. -/
def processExit (env : Env) : Int :=
  let _ := mainRun env
  0

/-- Modelled from the spec: `TargetPicker.pick` (spec section 4.2). The
target-selection code is absent from the source: `vm_vmotion_handler`
(lines 113-121) is an unimplemented stub and no other code selects a
migration destination, only the declaration of the handler and its caller
`vm_vmotion_handler_wrapper` exist. Following the words of the spec, the
eligible set is the host set minus the current host of the VM when that
host is known and a member of the set, otherwise the whole host set; an
empty eligible set yields no target; uniform-random selection is embedded
as an arbitrary draw `r` reduced modulo the size of the eligible set. -/
def pick (current : Option HostObj) (hosts : List HostObj) (r : Nat) : Option HostObj :=
  let eligible :=
    match current with
    | some h => if hosts.contains h then hosts.filter (fun x => x ≠ h) else hosts
    | none => hosts
  eligible[r % eligible.length]?

example : find_vm [⟨"vm1", 1⟩] "vm1" = some ⟨"vm1", 1⟩ := by decide
example : find_host [⟨"esx1", 1⟩] "esx1" = none := by decide
example : pick (some ⟨"a", 0⟩) [⟨"a", 0⟩, ⟨"b", 1⟩] 0 = some ⟨"b", 1⟩ := by decide

/-! ## Concrete environments used by counterexamples and witnesses -/

/-- A startup in which everything the script checks succeeds: the
connection is established, both input files exist, the single VM row
resolves in the inventory, and the configured thread count is 1. -/
def goodEnv : Env :=
  { connect := .ok, vmfileExists := true, vmRows := [["vm1"]],
    targetfileExists := true, targetRows := [["esx1"]],
    vmInventory := [⟨"vm1", 1⟩], hostInventory := [⟨"esx1", 2⟩],
    threads := 1 }

/-- A startup in which the management endpoint is unreachable. -/
def envUnreachable : Env :=
  { connect := .ioFail, vmfileExists := true, vmRows := [],
    targetfileExists := true, targetRows := [], vmInventory := [],
    hostInventory := [], threads := 1 }

/-- A startup whose VM file contains one record with no fields at all
(a blank line parsed by csv.reader). -/
def envBlankRow : Env :=
  { connect := .ok, vmfileExists := true, vmRows := [[]],
    targetfileExists := true, targetRows := [], vmInventory := [],
    hostInventory := [], threads := 1 }

/-! ## Claim theorems -/

/-- C7: the host-resolution match condition of the source (line 98)
compares the name of the host under inspection with the host object
itself, a str-to-managed-object comparison that is always False, so
find_host returns None for every requested name and every inventory. -/
theorem find_host_always_none (inventory : List HostObj) (name : String) :
    find_host inventory name = none := by
  rw [find_host, List.find?_eq_none]
  intro host _
  simp [pyEq]

/-- C8: vm_vmotion_handler issues no call against the migration engine
and returns None on every input, and no run of main issues a relocation
call either: the program never performs a migration. -/
theorem no_migration_ever :
    (∀ (vm_name : String) (host : HostObj),
      (vm_vmotion_handler vm_name host).migrateCalls = [] ∧
      (vm_vmotion_handler vm_name host).ret = none) ∧
    (∀ env : Env, (mainRun env).migrationsIssued = 0) := by
  refine ⟨fun vm_name host => ⟨rfl, rfl⟩, fun env => ?_⟩
  unfold mainRun
  rcases env with ⟨c, vf, vr, tf, tr, vi, hi, th⟩
  cases c <;> dsimp only <;> repeat' split
  all_goals rfl

/-- C5: the thread-count adjustment of lines 245-247 yields the minimum of
the resolved VM count and the configured thread count as the effective
pool size, logs exactly one adjustment message when the VM count is
strictly smaller, and logs nothing while leaving the configured count
unchanged otherwise. mainRun constructs the pool from the first component
of this very pair. -/
theorem adjustThreads_spec (vmCount : Nat) (threads : Int) :
    (adjustThreads vmCount threads).1 = min (vmCount : Int) threads ∧
    (adjustThreads vmCount threads).2 =
      (if (vmCount : Int) < threads then
        [LogMsg.warnThreadAdjust threads vmCount] else []) := by
  unfold adjustThreads
  constructor
  · split
    · next h => exact (min_eq_left (le_of_lt h)).symm
    · next h => exact (min_eq_right (le_of_not_lt h)).symm
  · split <;> rfl

/-- C1 evaluation: on a startup in which connection, input parsing,
resolution and pool creation all succeed, main does not enter any
migration cycle loop: it terminates of its own accord, returning 0 with
the pool created, zero migrations issued, and the farewell log line
written. This contradicts both the claim and the docstring of the script
(lines 2 and 6: it will continue until you stop it). -/
theorem mainRun_halts_after_startup :
    (mainRun goodEnv).retVal = 0 ∧ (mainRun goodEnv).poolCreated = true ∧
    (mainRun goodEnv).migrationsIssued = 0 ∧
    (mainRun goodEnv).logs.getLast? = some .infoFinishedAllTasks := by
  decide

/-- C3 counterexample: with an unreachable management endpoint, main does
return 1, but the process exit status is 0, because the entry point at
lines 265-266 is a bare `main()` that discards the return value; the
claimed non-zero process exit does not happen. -/
theorem exit_status_zero_on_unreachable_endpoint :
    envUnreachable.connect = .ioFail ∧ (mainRun envUnreachable).retVal = 1 ∧
    processExit envUnreachable = 0 := by decide

/-- C3 amended: if the management endpoint cannot be reached or
authenticated, or the VM input file does not exist, main halts before any
migration activity (no pool is created, no migration is issued) and
returns 1 -- but the process exit status is 0, since the module entry
point discards the return value of main. -/
theorem startup_failure_returns_one (env : Env)
    (h : env.connect ≠ .ok ∨ (env.connect = .ok ∧ env.vmfileExists = false)) :
    (mainRun env).retVal = 1 ∧ (mainRun env).poolCreated = false ∧
    (mainRun env).migrationsIssued = 0 ∧ processExit env = 0 := by
  rcases env with ⟨c, vf, vr, tf, tr, vi, hi, th⟩
  rcases h with h | ⟨h1, h2⟩
  · cases c
    · exact absurd rfl h
    · exact ⟨rfl, rfl, rfl, rfl⟩
    · exact ⟨rfl, rfl, rfl, rfl⟩
  · dsimp only at h1 h2
    subst h1
    subst h2
    exact ⟨rfl, rfl, rfl, rfl⟩

/-- C3 witness: the amended statement at the unreachable-endpoint
environment. -/
theorem startup_failure_returns_one_witness :
    (mainRun envUnreachable).retVal = 1 ∧
    (mainRun envUnreachable).poolCreated = false ∧
    (mainRun envUnreachable).migrationsIssued = 0 ∧
    processExit envUnreachable = 0 :=
  startup_failure_returns_one envUnreachable (Or.inl (by decide))

/-- C4 counterexample: a VM-file record with no fields at all (a blank
line) is a malformed record, and it does abort the run fatally: `row[0]`
raises IndexError, which only the generic except clause catches, so main
logs critical and returns 1 instead of skipping the record. -/
theorem blank_record_aborts_run :
    (mainRun envBlankRow).retVal = 1 ∧
    (mainRun envBlankRow).poolCreated = false ∧
    (mainRun envBlankRow).caught = some .indexError ∧
    (mainRun envBlankRow).logs = [.criticalException .indexError] := by decide

/-- C4 amended: a record whose name field is present but empty is skipped
with exactly one warning and processing continues with the remaining
records; a record with no fields at all, however, raises IndexError at
`row[0]` and aborts the loop (the exception is caught only by the
outermost handler, which makes main return 1). -/
theorem empty_name_skipped_fieldless_record_fatal {α : Type}
    (find : String → Option α) (we : LogMsg) (wm : String → LogMsg)
    (tl : List String) (rest : List (List String)) :
    resolveLoop find we wm (("" :: tl) :: rest) =
      (resolveLoop find we wm rest).map (fun p => (p.1, we :: p.2)) ∧
    resolveLoop find we wm ([] :: rest) = .error .indexError := by
  constructor
  · cases h : resolveLoop find we wm rest with
    | error e => simp [resolveLoop, rowStep, h, Except.map]
    | ok p =>
      cases p
      simp [resolveLoop, rowStep, h, Except.map]
  · rfl

/-- C2 (modelled from the spec, section 4.2): for every host set with at
least two members and every VM whose current host is known and belongs to
the set, pick selects a target and that target is never the current
host. -/
theorem pick_avoids_current_host (hosts : List HostObj) (h : HostObj)
    (r : Nat) (hnd : hosts.Nodup) (hlen : 2 ≤ hosts.length)
    (hmem : h ∈ hosts) :
    (pick (some h) hosts r).isSome = true ∧
    pick (some h) hosts r ≠ some h := by
  have hcont : hosts.contains h = true := List.elem_eq_true_of_mem hmem
  have hother : ∃ x ∈ hosts, x ≠ h := by
    match hosts, hlen with
    | a :: b :: t, _ =>
      have hab : a ≠ b := by
        intro hEq
        rcases hnd with _ | ⟨hnotmem, _⟩
        exact (hnotmem b (List.mem_cons_self b t)) hEq
      by_cases ha : a = h
      · exact ⟨b, List.mem_cons_of_mem a (List.mem_cons_self b t),
          fun hb => hab (by rw [ha, hb])⟩
      · exact ⟨a, List.mem_cons_self a (b :: t), ha⟩
  obtain ⟨x, hxmem, hxne⟩ := hother
  have hxel : x ∈ hosts.filter (fun y => y ≠ h) := by
    rw [List.mem_filter]
    exact ⟨hxmem, by simpa using hxne⟩
  have hpos : 0 < (hosts.filter (fun y => y ≠ h)).length :=
    List.length_pos_of_mem hxel
  have hidx : r % (hosts.filter (fun y => y ≠ h)).length <
      (hosts.filter (fun y => y ≠ h)).length := Nat.mod_lt r hpos
  have hpick : pick (some h) hosts r =
      some ((hosts.filter (fun y => y ≠ h))[r % (hosts.filter (fun y => y ≠ h)).length]) := by
    simp only [pick, hcont, if_pos]
    exact List.getElem?_eq_getElem hidx
  refine ⟨by rw [hpick]; rfl, ?_⟩
  rw [hpick]
  intro hEq
  have hmemf : (hosts.filter (fun y => y ≠ h))[r % (hosts.filter (fun y => y ≠ h)).length] ∈
      hosts.filter (fun y => y ≠ h) := List.getElem_mem hidx
  rw [List.mem_filter] at hmemf
  have : (hosts.filter (fun y => y ≠ h))[r % (hosts.filter (fun y => y ≠ h)).length] = h :=
    Option.some.inj hEq
  rw [this] at hmemf
  simpa using hmemf.2

/-- C2 witness: the theorem applied to a two-host set with the current
host being the first member and draw 0. -/
theorem pick_avoids_current_host_witness :
    ([⟨"esxA", 1⟩, ⟨"esxB", 2⟩] : List HostObj).Nodup ∧
    ((pick (some ⟨"esxA", 1⟩) [⟨"esxA", 1⟩, ⟨"esxB", 2⟩] 0).isSome = true ∧
      pick (some ⟨"esxA", 1⟩) [⟨"esxA", 1⟩, ⟨"esxB", 2⟩] 0 ≠ some ⟨"esxA", 1⟩) :=
  ⟨by decide, pick_avoids_current_host [⟨"esxA", 1⟩, ⟨"esxB", 2⟩] ⟨"esxA", 1⟩ 0
    (by decide) (by decide) (by decide)⟩

/-! ## Helper lemmas about the CSV resolution loop -/

/-- When every record has at least one field, the loop raises nothing and
runs to completion. -/
theorem resolveLoop_ok_of_wellformed {α : Type} (find : String → Option α)
    (we : LogMsg) (wm : String → LogMsg) (rows : List (List String))
    (hwf : ∀ r ∈ rows, r ≠ []) :
    ∃ xs logs, resolveLoop find we wm rows = .ok (xs, logs) := by
  induction rows with
  | nil => exact ⟨[], [], rfl⟩
  | cons row rest ih =>
    obtain ⟨xs, logs, hrest⟩ := ih (fun r hr => hwf r (List.mem_cons_of_mem _ hr))
    have hrow : row ≠ [] := hwf row (List.mem_cons_self _ _)
    obtain ⟨name, tl, rfl⟩ : ∃ a t, row = a :: t := by
      cases row with
      | nil => exact absurd rfl hrow
      | cons a t => exact ⟨a, t, rfl⟩
    by_cases hn : name = ""
    · subst hn
      exact ⟨xs, we :: logs, by simp [resolveLoop, rowStep, hrest]⟩
    · cases hf : find name with
      | some x =>
        exact ⟨x :: xs, logs, by simp [resolveLoop, rowStep, hn, hf, hrest]⟩
      | none =>
        exact ⟨xs, wm name :: logs, by simp [resolveLoop, rowStep, hn, hf, hrest]⟩

/-- A single record contributes a resolved object only when the lookup of
its first field succeeded. -/
theorem rowStep_resolved {α : Type} (find : String → Option α)
    (we : LogMsg) (wm : String → LogMsg) (row : List String)
    (x : α) (rlogs : List LogMsg)
    (hok : rowStep find we wm row = .ok (some x, rlogs)) :
    ∃ name, find name = some x := by
  cases row with
  | nil => simp [rowStep] at hok
  | cons name tl =>
    by_cases hn : name = ""
    · simp [rowStep, hn] at hok
    · cases hf : find name with
      | some y =>
        refine ⟨name, ?_⟩
        simp [rowStep, hn, hf] at hok
        rw [hf, hok.1]
      | none => simp [rowStep, hn, hf] at hok

/-- Every object in the resolved list of the loop comes from a successful
lookup: a name the inventory fails to resolve is excluded from the result
set. -/
theorem resolveLoop_mem_resolved {α : Type} (find : String → Option α)
    (we : LogMsg) (wm : String → LogMsg) (rows : List (List String))
    (xs : List α) (logs : List LogMsg)
    (hok : resolveLoop find we wm rows = .ok (xs, logs)) :
    ∀ x ∈ xs, ∃ name, find name = some x := by
  induction rows generalizing xs logs with
  | nil =>
    simp only [resolveLoop, Except.ok.injEq, Prod.mk.injEq] at hok
    rw [← hok.1]
    intro x hx
    cases hx
  | cons row rest ih =>
    cases hstep : rowStep find we wm row with
    | error e => simp [resolveLoop, hstep] at hok
    | ok p =>
      obtain ⟨ox, rlogs⟩ := p
      cases hrest : resolveLoop find we wm rest with
      | error e => simp [resolveLoop, hstep, hrest] at hok
      | ok q =>
        obtain ⟨xs', logs'⟩ := q
        simp only [resolveLoop, hstep, hrest, Except.ok.injEq, Prod.mk.injEq] at hok
        rw [← hok.1]
        intro x hx
        rcases List.mem_append.1 hx with hx | hx
        · cases ox with
          | none => cases hx
          | some y =>
            have hxy : x = y := by simpa using hx
            subst hxy
            exact rowStep_resolved find we wm row x rlogs hstep
        · exact ih xs' logs' hrest x hx

/-- The loop emits exactly one missing-name warning per record whose first
field is a given unresolvable nonempty name: the count of that warning in
the emitted log equals the count of such records in the input. -/
theorem resolveLoop_count_warn {α : Type} (find : String → Option α)
    (we : LogMsg) (wm : String → LogMsg)
    (hinj : ∀ a b, wm a = wm b → a = b) (hne : ∀ a, we ≠ wm a)
    (name : String) (hname : name ≠ "") (hmiss : find name = none)
    (rows : List (List String)) (xs : List α) (logs : List LogMsg)
    (hok : resolveLoop find we wm rows = .ok (xs, logs)) :
    logs.count (wm name) = rows.countP (fun r => r.head? == some name) := by
  induction rows generalizing xs logs with
  | nil =>
    simp only [resolveLoop, Except.ok.injEq, Prod.mk.injEq] at hok
    rw [← hok.2]
    rfl
  | cons row rest ih =>
    cases row with
    | nil => simp [resolveLoop, rowStep] at hok
    | cons nm tl =>
      cases hrest : resolveLoop find we wm rest with
      | error e =>
        cases hstep : rowStep find we wm (nm :: tl) with
        | error e2 => simp [resolveLoop, hstep] at hok
        | ok p => simp [resolveLoop, hstep, hrest] at hok
      | ok q =>
        obtain ⟨xs', logs'⟩ := q
        have hcount := ih xs' logs' hrest
        by_cases hn : nm = ""
        · subst hn
          simp [resolveLoop, rowStep, hrest] at hok
          rcases hok with ⟨rfl, rfl⟩
          simp [List.count_cons, List.countP_cons, hcount, hne name,
            Ne.symm hname]
        · cases hf : find nm with
          | some x =>
            have hnm : nm ≠ name := by
              intro hEq
              rw [hEq, hmiss] at hf
              cases hf
            simp [resolveLoop, rowStep, hn, hf, hrest] at hok
            rcases hok with ⟨rfl, rfl⟩
            simp [List.countP_cons, hnm, hcount]
          | none =>
            simp [resolveLoop, rowStep, hn, hf, hrest] at hok
            rcases hok with ⟨rfl, rfl⟩
            by_cases hnm : nm = name
            · subst hnm
              simp [List.count_cons, List.countP_cons, hcount]
            · have hwmne : wm nm ≠ wm name := fun hEq => hnm (hinj _ _ hEq)
              simp [List.count_cons, List.countP_cons, hnm, hwmne, hcount]

/-- A startup that reaches the host loop but whose target hosts file does
not exist. -/
def envNoTargetFile : Env :=
  { connect := .ok, vmfileExists := true, vmRows := [["vm1"]],
    targetfileExists := false, targetRows := [],
    vmInventory := [⟨"vm1", 1⟩], hostInventory := [], threads := 1 }

/-- A startup whose VM file is empty, so the resolved VM list is empty,
with one configured worker thread. -/
def envNoVms : Env :=
  { connect := .ok, vmfileExists := true, vmRows := [],
    targetfileExists := true, targetRows := [], vmInventory := [],
    hostInventory := [], threads := 1 }

/-- C6: for both resolution loops, any record whose nonempty name the
inventory fails to resolve is reported with exactly one warning and the
entity is excluded from the resolved set, while resolution of the
remaining records runs to completion; only successfully resolved entities
ever enter the resolved lists from which tasks could be built. -/
theorem resolution_isolated_per_name (vmInv : List VMObj)
    (hostInv : List HostObj) (vmRows hostRows : List (List String))
    (hwfv : ∀ r ∈ vmRows, r ≠ []) (hwfh : ∀ r ∈ hostRows, r ≠ []) :
    ∃ vms vmLogs hosts hostLogs,
      resolveLoop (find_vm vmInv) .warnNoVmName .warnVmNotFound vmRows
        = .ok (vms, vmLogs) ∧
      resolveLoop (find_host hostInv) .warnNoHostName .warnHostNotFound hostRows
        = .ok (hosts, hostLogs) ∧
      (∀ vm ∈ vms, ∃ name, find_vm vmInv name = some vm) ∧
      (∀ hst ∈ hosts, ∃ name, find_host hostInv name = some hst) ∧
      (∀ name, name ≠ "" → find_vm vmInv name = none →
        vmLogs.count (.warnVmNotFound name)
          = vmRows.countP (fun r => r.head? == some name)) ∧
      (∀ name, name ≠ "" → find_host hostInv name = none →
        hostLogs.count (.warnHostNotFound name)
          = hostRows.countP (fun r => r.head? == some name)) := by
  obtain ⟨vms, vmLogs, hv⟩ :=
    resolveLoop_ok_of_wellformed (find_vm vmInv) _ _ vmRows hwfv
  obtain ⟨hosts, hostLogs, hh⟩ :=
    resolveLoop_ok_of_wellformed (find_host hostInv) _ _ hostRows hwfh
  refine ⟨vms, vmLogs, hosts, hostLogs, hv, hh,
    resolveLoop_mem_resolved _ _ _ _ _ _ hv,
    resolveLoop_mem_resolved _ _ _ _ _ _ hh, ?_, ?_⟩
  · intro name hn hm
    exact resolveLoop_count_warn _ _ _
      (fun a b hab => LogMsg.warnVmNotFound.inj hab)
      (fun a hq => LogMsg.noConfusion hq) name hn hm vmRows vms vmLogs hv
  · intro name hn hm
    exact resolveLoop_count_warn _ _ _
      (fun a b hab => LogMsg.warnHostNotFound.inj hab)
      (fun a hq => LogMsg.noConfusion hq) name hn hm hostRows hosts hostLogs hh

/-- C6 witness: the theorem at a VM file naming one resolvable and one
unknown VM and a host file naming one host (which, per find_host, never
resolves). -/
theorem resolution_isolated_per_name_witness :
    (∀ r ∈ [["vm1"], ["ghost"]], r ≠ ([] : List String)) ∧
    (∀ r ∈ [["esx1"]], r ≠ ([] : List String)) ∧
    (∃ vms vmLogs hosts hostLogs,
      resolveLoop (find_vm [⟨"vm1", 1⟩]) .warnNoVmName .warnVmNotFound
          [["vm1"], ["ghost"]] = .ok (vms, vmLogs) ∧
      resolveLoop (find_host [⟨"esx1", 7⟩]) .warnNoHostName .warnHostNotFound
          [["esx1"]] = .ok (hosts, hostLogs) ∧
      (∀ vm ∈ vms, ∃ name, find_vm [⟨"vm1", 1⟩] name = some vm) ∧
      (∀ hst ∈ hosts, ∃ name, find_host [⟨"esx1", 7⟩] name = some hst) ∧
      (∀ name, name ≠ "" → find_vm [⟨"vm1", 1⟩] name = none →
        vmLogs.count (.warnVmNotFound name)
          = [["vm1"], ["ghost"]].countP (fun r => r.head? == some name)) ∧
      (∀ name, name ≠ "" → find_host [⟨"esx1", 7⟩] name = none →
        hostLogs.count (.warnHostNotFound name)
          = [["esx1"]].countP (fun r => r.head? == some name))) :=
  ⟨by decide, by decide,
    resolution_isolated_per_name [⟨"vm1", 1⟩] [⟨"esx1", 7⟩]
      [["vm1"], ["ghost"]] [["esx1"]] (by decide) (by decide)⟩

/-- C9: when the target hosts file does not exist (and startup reached it:
connection up, VM file present, VM records well formed), the open raises
IOError, only the generic outermost except clause catches it, main logs
critical and returns 1, and the pool is never created; there is no
dedicated existence check like the one the VM file receives. -/
theorem missing_targetfile_fatal (env : Env)
    (hc : env.connect = .ok) (hvf : env.vmfileExists = true)
    (hwf : ∀ r ∈ env.vmRows, r ≠ [])
    (htf : env.targetfileExists = false) :
    (mainRun env).retVal = 1 ∧ (mainRun env).poolCreated = false ∧
    (mainRun env).caught = some .ioError ∧
    LogMsg.criticalException .ioError ∈ (mainRun env).logs := by
  obtain ⟨xs, logs, hok⟩ := resolveLoop_ok_of_wellformed
    (find_vm env.vmInventory) .warnNoVmName .warnVmNotFound env.vmRows hwf
  unfold mainRun
  rw [hc]
  simp [hvf, hok, htf, catchLog]

/-- C9 witness: the theorem at a startup whose target file is absent. -/
theorem missing_targetfile_fatal_witness :
    (mainRun envNoTargetFile).retVal = 1 ∧
    (mainRun envNoTargetFile).poolCreated = false ∧
    (mainRun envNoTargetFile).caught = some .ioError ∧
    LogMsg.criticalException .ioError ∈ (mainRun envNoTargetFile).logs :=
  missing_targetfile_fatal envNoTargetFile rfl rfl (by decide) rfl

/-- C10: when the resolved VM list is empty and at least one worker thread
is configured, the adjustment lowers the thread count to 0, ThreadPool
raises ValueError, the generic outermost except clause catches it, and
main returns 1 with no pool created, instead of idling with zero
workers. -/
theorem empty_vm_list_pool_failure (env : Env) (vmLogs : List LogMsg)
    (hc : env.connect = .ok) (hvf : env.vmfileExists = true)
    (hok : resolveLoop (find_vm env.vmInventory) .warnNoVmName .warnVmNotFound
        env.vmRows = .ok ([], vmLogs))
    (htf : env.targetfileExists = true)
    (hwfh : ∀ r ∈ env.targetRows, r ≠ [])
    (hth : 1 ≤ env.threads) :
    (mainRun env).retVal = 1 ∧ (mainRun env).poolCreated = false ∧
    (mainRun env).caught = some .valueError ∧
    LogMsg.warnThreadAdjust env.threads 0 ∈ (mainRun env).logs ∧
    LogMsg.criticalException .valueError ∈ (mainRun env).logs := by
  obtain ⟨hosts, hostLogs, hhok⟩ := resolveLoop_ok_of_wellformed
    (find_host env.hostInventory) .warnNoHostName .warnHostNotFound
    env.targetRows hwfh
  have hlt : (0 : Int) < env.threads := lt_of_lt_of_le Int.zero_lt_one hth
  unfold mainRun
  rw [hc]
  simp [hvf, hok, htf, hhok, adjustThreads, threadPool, hlt, catchLog]

/-- C10 witness: the theorem at a startup with an empty VM file and one
configured worker thread. -/
theorem empty_vm_list_pool_failure_witness :
    (mainRun envNoVms).retVal = 1 ∧ (mainRun envNoVms).poolCreated = false ∧
    (mainRun envNoVms).caught = some .valueError ∧
    LogMsg.warnThreadAdjust envNoVms.threads 0 ∈ (mainRun envNoVms).logs ∧
    LogMsg.criticalException .valueError ∈ (mainRun envNoVms).logs :=
  empty_vm_list_pool_failure envNoVms [] rfl rfl rfl rfl (by decide) (by decide)
